import Mathlib

/-!
Verification of the pdf-service repository: a FastAPI microservice exposing
PDF compression and merging, delegating work to the external tools gs and
qpdf.  The definitions below are a shallow embedding of
app/services/file_service.py and app/api/api_pdf.py: byte buffers are lists
of naturals, external processes are resolved by an explicit world record,
temporary-file allocation is a fresh-name counter, and the filesystem of
temp files is the list of paths currently existing.
-/

/-- Byte strings (uploaded PDFs, tool output) as lists of byte values. -/
abbrev Bytes := List Nat

/-- A temporary file path as produced by tempfile.NamedTemporaryFile:
a fresh unique part (modelled by a counter id) plus the requested suffix. -/
structure TempPath where
  id : Nat
  suffix : String
deriving DecidableEq, Repr

/-- Rendering of a temp path as the string handed to external commands. -/
def pathStr (p : TempPath) : String :=
  "/tmp/tmp" ++ toString p.id ++ p.suffix

/-- Outcome of one external-process invocation, chosen by the environment:
either the process exited with a return code, captured stdout bytes and
decoded stderr text, or the subprocess timeout expired. -/
inductive ProcOutcome where
  | exited (returncode : Int) (stdout : Bytes) (stderr : String)
  | timedOut
deriving DecidableEq, Repr

/-- One recorded subprocess invocation: the argv list and the timeout
argument passed to subprocess (none would mean an unbounded wait). -/
structure Invocation where
  cmd : List String
  timeoutSec : Option Nat
deriving DecidableEq, Repr

/-- Environment for FileService.compress_pdf_tmp: the outcome of the gs
run, the outcome of the qpdf run, and the bytes qpdf leaves in the output
file when it succeeds. -/
structure TmpWorld where
  gs : ProcOutcome
  qpdf : ProcOutcome
  qpdfFileOutput : Bytes
deriving DecidableEq, Repr

/-- Environment for FileService.merge_pdf: outcome of the single qpdf run
and the bytes it leaves in the output file on success. -/
structure MergeWorld where
  qpdf : ProcOutcome
  qpdfFileOutput : Bytes
deriving DecidableEq, Repr

/-- Result of running one FileService operation: the returned bytes or the
text of the raised RuntimeError, the subprocess invocations made in order,
the temp paths created, the temp files still existing after the finally
block, and the allocator counter afterwards. -/
structure SvcOut where
  result : Except String Bytes
  invocations : List Invocation
  created : List TempPath
  remaining : List TempPath
  counter : Nat
deriving Repr

/-- The finally-block loop of both service methods: for each path in the
list, if the file exists it is unlinked.  Returns the filesystem after. -/
def cleanup : List TempPath → List TempPath → List TempPath
  | [], fs => fs
  | p :: rest, fs =>
      cleanup rest (if fs.contains p then fs.filter (fun x => x != p) else fs)

/-- The match statement on quality in compress_pdf_tmp, yielding
(mono, color, gray) image resolutions; defaults are 300, 96, 96. -/
def qualitySettings (quality : String) : Nat × Nat × Nat :=
  match quality with
  | "printer" => (600, 150, 150)
  | "ebook" => (300, 96, 96)
  | "screen" => (150, 72, 72)
  | _ => (300, 96, 96)

/-- The gs_cmd argv list of compress_pdf_tmp. -/
def gsTmpCmd (quality : String) (outputPath inputPath : String) : List String :=
  let q := qualitySettings quality
  [ "gs"
  , "-sDEVICE=pdfwrite"
  , "-dCompatibilityLevel=1.7"
  , "-dPDFSETTINGS=/" ++ quality
  , "-dNOPAUSE"
  , "-dQUIET"
  , "-dBATCH"
  , "-dDetectDuplicateImages=true"
  , "-dRemoveDuplicateImages=true"
  , "-dRemoveOPComments=true"
  , "-dCompressFonts=true"
  , "-dSubsetFonts=true"
  , "-dCompressPages=true"
  , "-dEmbedAllFonts=true"
  , "-dDownsampleColorImages=true"
  , "-dColorImageResolution=" ++ toString q.2.1
  , "-dColorImageDownsampleType=/Bicubic"
  , "-dAutoFilterColorImages=false"
  , "-dColorImageFilter=/DCTEncode"
  , "-dDownsampleGrayImages=true"
  , "-dGrayImageResolution=" ++ toString q.2.2
  , "-dGrayImageDownsampleType=/Bicubic"
  , "-dAutoFilterGrayImages=false"
  , "-dGrayImageFilter=/DCTEncode"
  , "-dDownsampleMonoImages=true"
  , "-dMonoImageResolution=" ++ toString q.1
  , "-dMonoImageDownsampleType=/Bicubic"
  , "-dDiscardComments=true"
  , "-dDiscardDocInfo=true"
  , "-dFilterTextAnnotations=true"
  , "-dFilterImageAnnotations=true"
  , "-sOutputFile=" ++ outputPath
  , inputPath ]

/-- The qpdf_cmd argv list of compress_pdf_tmp. -/
def qpdfTmpCmd (outputPath outputCompressPath : String) : List String :=
  [ "qpdf"
  , "--stream-data=compress"
  , "--object-streams=generate"
  , "--compress-streams=y"
  , "--compression-level=9"
  , outputPath
  , outputCompressPath ]

/-- Rendering of an argv list inside the str of a TimeoutExpired. -/
def cmdStr (cmd : List String) : String :=
  String.intercalate " " cmd

/-- The str of subprocess.TimeoutExpired for a command run with the given
timeout in seconds. -/
def timeoutExpiredStr (cmd : List String) (t : Nat) : String :=
  "Command " ++ cmdStr cmd ++ " timed out after " ++ toString t ++ " seconds"

/-- FileService.compress_pdf_tmp: writes the upload to a temp file,
creates two more temp files, runs gs then qpdf with quality-dependent
flags and timeout 60, reads the final file, and in a finally block unlinks
every temp path that exists.  RuntimeErrors raised in the try body are
re-wrapped by the blanket except clause, so their text gains the prefix
"Unexpected error: "; the TimeoutExpired handler produces
"Compression timeout: " followed by the str of the exception.
Temp-file creation and the final read are modelled as non-failing, so by
any exit all three paths are set and existing. -/
def compress_pdf_tmp (pdf_bytes : Bytes) (quality : String) (w : TmpWorld)
    (n : Nat) : SvcOut :=
  let input_path : TempPath := ⟨n, ".pdf"⟩
  let output_path : TempPath := ⟨n + 1, "_gs.pdf"⟩
  let output_compress_path : TempPath := ⟨n + 2, "_qpdf.pdf"⟩
  let created := [input_path, output_path, output_compress_path]
  let remaining := cleanup created created
  let gsCmd := gsTmpCmd quality (pathStr output_path) (pathStr input_path)
  let gsInv : Invocation := ⟨gsCmd, some 60⟩
  match w.gs with
  | .timedOut =>
      { result := .error ("Compression timeout: " ++ timeoutExpiredStr gsCmd 60)
        invocations := [gsInv], created, remaining, counter := n + 3 }
  | .exited rc _ err =>
      if rc ≠ 0 then
        { result := .error ("Unexpected error: Error to compress file: " ++ err)
          invocations := [gsInv], created, remaining, counter := n + 3 }
      else
        let qpdfCmd :=
          qpdfTmpCmd (pathStr output_path) (pathStr output_compress_path)
        let qpdfInv : Invocation := ⟨qpdfCmd, some 60⟩
        match w.qpdf with
        | .timedOut =>
            { result :=
                .error ("Compression timeout: " ++ timeoutExpiredStr qpdfCmd 60)
              invocations := [gsInv, qpdfInv], created, remaining
              counter := n + 3 }
        | .exited rc2 _ err2 =>
            if rc2 ≠ 0 then
              { result :=
                  .error ("Unexpected error: Error to compress file: " ++ err2)
                invocations := [gsInv, qpdfInv], created, remaining
                counter := n + 3 }
            else
              { result := .ok w.qpdfFileOutput
                invocations := [gsInv, qpdfInv], created, remaining
                counter := n + 3 }

/-- The input temp paths created by merge_pdf for a list of k uploads,
starting from allocator counter n: upload i gets suffix "_i.pdf". -/
def mergeInputPaths (k n : Nat) : List TempPath :=
  (List.range k).map (fun i => ⟨n + i, "_" ++ toString i ++ ".pdf"⟩)

/-- The qpdf_cmd argv list of merge_pdf. -/
def mergeCmd (inputPaths : List String) (outputPath : String) : List String :=
  [ "qpdf", "--linearize", "--empty", "--pages" ] ++ inputPaths ++
  [ "--", outputPath
  , "--object-streams=generate"
  , "--compress-streams=y"
  , "--recompress-flate" ]

/-- FileService.merge_pdf: writes each upload to its own temp file with an
index-bearing suffix, creates an output temp file, runs qpdf once with
timeout 60, reads the output file, and in a finally block unlinks every
temp path that exists.  The RuntimeError for a non-zero exit is re-wrapped
by the blanket except clause ("Unexpected error during merge: "); a
timeout yields "Merge operation timed out".  Temp-file creation and the
final read are modelled as non-failing. -/
def merge_pdf (bytes_list : List Bytes) (w : MergeWorld) (n : Nat) : SvcOut :=
  let k := bytes_list.length
  let input_paths := mergeInputPaths k n
  let output_path : TempPath := ⟨n + k, "_gs.pdf"⟩
  let created := input_paths ++ [output_path]
  let remaining := cleanup created created
  let cmd := mergeCmd (input_paths.map pathStr) (pathStr output_path)
  let inv : Invocation := ⟨cmd, some 60⟩
  match w.qpdf with
  | .timedOut =>
      { result := .error "Merge operation timed out"
        invocations := [inv], created, remaining, counter := n + k + 1 }
  | .exited rc _ err =>
      if rc ≠ 0 then
        { result :=
            .error ("Unexpected error during merge: Error merging PDFs: " ++ err)
          invocations := [inv], created, remaining, counter := n + k + 1 }
      else
        { result := .ok w.qpdfFileOutput
          invocations := [inv], created, remaining, counter := n + k + 1 }

/-- The gs_cmd argv list of compress_pdf_buffer (stdin/stdout pipeline,
CompatibilityLevel 1.4, no resolution flags). -/
def gsBufCmd (quality : String) : List String :=
  [ "gs"
  , "-sDEVICE=pdfwrite"
  , "-dCompatibilityLevel=1.4"
  , "-dPDFSETTINGS=/" ++ quality
  , "-dNOPAUSE"
  , "-dQUIET"
  , "-dBATCH"
  , "-dDetectDuplicateImages=true"
  , "-dRemoveOPComments=true"
  , "-dCompressFonts=true"
  , "-dDiscardComments=true"
  , "-dDiscardDocInfo=true"
  , "-dFILTERTEXTANNOTATIONS=true"
  , "-dFILTERIMAGEANNOTATIONS=true"
  , "-sOutputFile=-"
  , "-" ]

/-- FileService.compress_pdf_buffer: pipes the bytes through one gs
process (communicate with timeout 60).  Non-zero exit and empty output
each raise a RuntimeError that the blanket except clause re-wraps with
"Unexpected error: "; a timeout kills the process and raises
"Compression took too long".  No temp files are involved. -/
def compress_pdf_buffer (pdf_bytes : Bytes) (quality : String)
    (w : ProcOutcome) : Except String Bytes × List Invocation :=
  let inv : Invocation := ⟨gsBufCmd quality, some 60⟩
  match w with
  | .timedOut => (.error "Compression took too long", [inv])
  | .exited rc out err =>
      if rc ≠ 0 then
        (.error ("Unexpected error: Error to compress file: " ++ err), [inv])
      else if out = [] then
        (.error "Unexpected error: Compression failed: no output generated", [inv])
      else
        (.ok out, [inv])

/-! ## The API layer (app/api/api_pdf.py) -/

/-- The quality form field of the compress endpoint is declared as
Literal with exactly these three values; FastAPI rejects anything else
before the handler runs. -/
inductive Quality where
  | extreme
  | normal
  | low
deriving DecidableEq, Repr

/-- The string the client sent for a validated quality value. -/
def Quality.str : Quality → String
  | .extreme => "extreme"
  | .normal => "normal"
  | .low => "low"

/-- The validation FastAPI applies to the quality form field: only the
three literals of the annotation are accepted. -/
def parseQuality (s : String) : Option Quality :=
  match s with
  | "extreme" => some .extreme
  | "normal" => some .normal
  | "low" => some .low
  | _ => none

/-- The accepted_quality dict of api_pdf.py, as a lookup on strings. -/
def accepted_quality (q : String) : Option String :=
  match q with
  | "extreme" => some "screen"
  | "normal" => some "ebook"
  | "low" => some "printer"
  | _ => none

/-- The dict lookup accepted_quality quality of the handler, applied to a
validated quality value (for which the lookup cannot fail). -/
def gsQuality : Quality → String
  | .extreme => "screen"
  | .normal => "ebook"
  | .low => "printer"

/-- An uploaded file as the handlers see it: content type, filename, the
size reported by the upload machinery, and the bytes read from it. -/
structure UploadFile where
  filename : String
  content_type : String
  size : Nat
  content : Bytes
deriving DecidableEq, Repr

/-- A raised fastapi HTTPException: status code and detail text. -/
structure HTTPError where
  status_code : Nat
  detail : String
deriving DecidableEq, Repr

/-- The str of a starlette HTTPException: "status_code: detail". -/
def httpStr (e : HTTPError) : String :=
  toString e.status_code ++ ": " ++ e.detail

/-- A successful StreamingResponse: body bytes, media type, headers. -/
structure Response where
  body : Bytes
  media_type : String
  headers : List (String × String)
deriving DecidableEq, Repr

/-- What one endpoint call produces: the HTTP outcome plus the subprocess
invocations made and the temp files left behind by the service call. -/
structure EndpointOut where
  response : Except HTTPError Response
  invocations : List Invocation
  remaining : List TempPath
deriving Repr

/-- Python str.removesuffix: drop the suffix when the string ends with it
(implemented on the character list so that it evaluates by reduction). -/
def removesuffix (s p : String) : String :=
  if p ≠ "" ∧ p.data.isSuffixOf s.data then
    String.mk (s.data.take (s.data.length - p.data.length))
  else s

/-- Rendering of a signed number of hundredths as a fixed-point decimal
with two digits after the point. -/
def renderCenti (n : ℤ) : String :=
  let sign := if n < 0 then "-" else ""
  let m := n.natAbs
  let fp := m % 100
  let fpStr := if fp < 10 then "0" ++ toString fp else toString fp
  sign ++ toString (m / 100) ++ "." ++ fpStr

/-- Rounding half to even of a rational to an integer, as float formatting
does at the rendered precision. -/
def rhe (q : ℚ) : ℤ :=
  let f : ℤ := ⌊q⌋
  if q - f < 1 / 2 then f
  else if q - f > 1 / 2 then f + 1
  else if f % 2 = 0 then f else f + 1

/-- Rendering of a rational with two decimal places, the model of the
format spec .2f applied to the reduction value. -/
def fmt2 (q : ℚ) : String :=
  renderCenti (rhe (q * 100))

/-- Rounding half to even of the fraction a / b (b positive) using only
integer arithmetic, so that it evaluates by kernel reduction. -/
def rheDiv (a : ℤ) (b : ℕ) : ℤ :=
  let f : ℤ := a / (b : ℤ)
  let r : ℤ := a % (b : ℤ)
  if 2 * r < (b : ℤ) then f
  else if (b : ℤ) < 2 * r then f + 1
  else if f % 2 = 0 then f else f + 1

/-- The two-decimal rendering of the fraction a / b, computed with integer
arithmetic; agrees with fmt2 on the same fraction (fmt2Frac_eq_fmt2). -/
def fmt2Frac (a : ℤ) (b : ℕ) : String :=
  renderCenti (rheDiv (a * 100) b)

/-- The reduction expression of pdf_compressor as an exact rational:
((actual_size - compressed_size) / actual_size) * 100. -/
def reductionOf (actual_size compressed_size : Nat) : ℚ :=
  ((actual_size : ℚ) - (compressed_size : ℚ)) / (actual_size : ℚ) * 100

/-- The pdf_compressor handler of api_pdf.py.  Everything in its try block
that raises — the 400 for a wrong content type, the RuntimeError from the
service, the 500 for empty output, and the ZeroDivisionError when the
reported size is 0 — is caught by the blanket except clause and re-raised
as HTTPException(500, str(e)); for an HTTPException that str is
"code: detail", for a ZeroDivisionError it is "division by zero". -/
def pdf_compressor (file : UploadFile) (quality : Quality) (w : TmpWorld)
    (n : Nat) : EndpointOut :=
  if file.content_type ≠ "application/pdf" then
    { response := .error ⟨500, httpStr ⟨400, "File type is incorrect"⟩⟩
      invocations := [], remaining := [] }
  else
    let svc := compress_pdf_tmp file.content (gsQuality quality) w n
    match svc.result with
    | .error msg =>
        { response := .error ⟨500, msg⟩
          invocations := svc.invocations, remaining := svc.remaining }
    | .ok compressed_file =>
        if compressed_file = [] then
          { response :=
              .error ⟨500, httpStr ⟨500, "Compression did not generate any results"⟩⟩
            invocations := svc.invocations, remaining := svc.remaining }
        else
          let file_name := removesuffix file.filename ".pdf"
          let compressed_size := compressed_file.length
          if file.size = 0 then
            { response := .error ⟨500, "division by zero"⟩
              invocations := svc.invocations, remaining := svc.remaining }
          else
            { response := .ok
                { body := compressed_file
                  media_type := "application/pdf"
                  headers :=
                    [ ("Content-Disposition",
                        "attachment; filename=\"" ++ file_name ++ "_compress.pdf\"")
                    , ("Content-Length", toString compressed_file.length)
                    , ("X-Original-Size", toString file.size)
                    , ("X-Compressed-size", toString compressed_size)
                    , ("X-Reduction-Percent",
                        fmt2Frac (((file.size : ℤ) - compressed_size) * 100) file.size)
                    , ("X-Quality-Level", quality.str) ] }
              invocations := svc.invocations, remaining := svc.remaining }

/-- The pdf_merge handler of api_pdf.py.  The 400s for fewer than two
files or a non-PDF content type, the RuntimeError from the service and
the 500 for empty output are all caught by the blanket except clause and
re-raised as HTTPException(500, str(e)). -/
def pdf_merge (files : List UploadFile) (w : MergeWorld) (n : Nat) :
    EndpointOut :=
  if files.length < 2 then
    { response :=
        .error ⟨500, httpStr ⟨400, "At least 2 PDF files are required for merging."⟩⟩
      invocations := [], remaining := [] }
  else
    match files.find? (fun f => f.content_type != "application/pdf") with
    | some bad =>
        { response :=
            .error ⟨500, httpStr ⟨400,
              "Invalid file type: " ++ bad.filename ++ " must be a PDF."⟩⟩
          invocations := [], remaining := [] }
    | none =>
        let svc := merge_pdf (files.map UploadFile.content) w n
        match svc.result with
        | .error msg =>
            { response := .error ⟨500, msg⟩
              invocations := svc.invocations, remaining := svc.remaining }
        | .ok merged_file =>
            if merged_file = [] then
              { response :=
                  .error ⟨500, httpStr ⟨500, "Merge did not generate any results"⟩⟩
                invocations := svc.invocations, remaining := svc.remaining }
            else
              { response := .ok
                  { body := merged_file
                    media_type := "application/pdf"
                    headers :=
                      [ ("Content-Disposition", "attachment; filename=\"merged.pdf\"")
                      , ("Content-Length", toString merged_file.length) ] }
                invocations := svc.invocations, remaining := svc.remaining }

/-! ## Auxiliary observables used by the theorems -/

/-- The FileService class of file_service.py: its class body declares no
fields, no constructor and no class attributes, only the three methods
modelled above, so a value of this type carries no state. -/
structure FileService

/-- The outcome of a service call as observable through the HTTP contract
up to error text: the returned bytes on success, or the fact of failure.
(The text of an error can mention the per-request temp file names through
the str of a TimeoutExpired, which is why it is quotiented away here.) -/
def obsResult : Except String Bytes → Except Unit Bytes
  | .ok b => .ok b
  | .error _ => .error ()

/-- Whether the gs invocation of a compress_pdf_tmp world exits with
return code 0, which is the condition under which qpdf is reached. -/
def gsOk (w : TmpWorld) : Bool :=
  match w.gs with
  | .exited rc _ _ => rc == 0
  | .timedOut => false

/-- The headers of a successful response, [] for an error. -/
def headersOf : Except HTTPError Response → List (String × String)
  | .ok resp => resp.headers
  | .error _ => []

/-- The temp-name allocator shared by all requests, modelled after the
guarantee of tempfile.NamedTemporaryFile: each creation atomically draws
a name never handed out before (a fresh counter value).  A schedule is an
interleaving of the creation events of two concurrent requests, tagged by
which request performs each event; the event at position k draws id
n + k. -/
def runSched (n : Nat) (sched : List Bool) : List (Bool × Nat) :=
  sched.enum.map (fun e => (e.2, n + e.1))

/-- The ids drawn by the request with the given tag under a schedule. -/
def idsFor (t : Bool) (l : List (Bool × Nat)) : List Nat :=
  (l.filter (fun e => e.1 == t)).map (fun e => e.2)

/-- The three temp paths compress_pdf_tmp creates from counter n. -/
def compressPaths (n : Nat) : List TempPath :=
  [⟨n, ".pdf"⟩, ⟨n + 1, "_gs.pdf"⟩, ⟨n + 2, "_qpdf.pdf"⟩]

/-- The gs invocation compress_pdf_tmp makes from counter n. -/
def compressGsInv (q : String) (n : Nat) : Invocation :=
  ⟨gsTmpCmd q (pathStr ⟨n + 1, "_gs.pdf"⟩) (pathStr ⟨n, ".pdf"⟩), some 60⟩

/-- The qpdf invocation compress_pdf_tmp makes from counter n. -/
def compressQpdfInv (n : Nat) : Invocation :=
  ⟨qpdfTmpCmd (pathStr ⟨n + 1, "_gs.pdf"⟩) (pathStr ⟨n + 2, "_qpdf.pdf"⟩), some 60⟩

/-- The single qpdf invocation merge_pdf makes for k uploads, counter n. -/
def mergeInv (k n : Nat) : Invocation :=
  ⟨mergeCmd ((mergeInputPaths k n).map pathStr) (pathStr ⟨n + k, "_gs.pdf"⟩),
   some 60⟩

/-! ## Helper lemmas -/

theorem mem_cleanup (paths : List TempPath) :
    ∀ fs x, x ∈ cleanup paths fs ↔ x ∈ fs ∧ x ∉ paths := by
  induction paths with
  | nil => intro fs x; simp [cleanup]
  | cons p rest ih =>
      intro fs x
      rw [cleanup]
      by_cases hc : fs.contains p
      · rw [if_pos hc, ih]
        simp only [List.mem_filter, bne_iff_ne, ne_eq, decide_eq_true_eq,
          List.mem_cons, not_or]
        tauto
      · rw [if_neg hc, ih]
        have hp : p ∉ fs := by
          intro hmem
          exact hc (List.elem_eq_true_of_mem hmem)
        simp only [List.mem_cons, not_or]
        constructor
        · rintro ⟨hfs, hrest⟩
          exact ⟨hfs, ⟨fun he => hp (he ▸ hfs), hrest⟩⟩
        · rintro ⟨hfs, _, hrest⟩
          exact ⟨hfs, hrest⟩

theorem cleanup_self (l : List TempPath) : cleanup l l = [] := by
  rw [List.eq_nil_iff_forall_not_mem]
  intro x hx
  rw [mem_cleanup] at hx
  exact hx.2 hx.1

theorem compress_pdf_tmp_created (b : Bytes) (q : String) (w : TmpWorld)
    (n : Nat) : (compress_pdf_tmp b q w n).created = compressPaths n := by
  rw [compress_pdf_tmp, compressPaths]
  rcases w with ⟨gs, qp, fo⟩
  cases gs <;> cases qp <;> (repeat' split) <;> rfl

theorem compress_pdf_tmp_remaining (b : Bytes) (q : String) (w : TmpWorld)
    (n : Nat) : (compress_pdf_tmp b q w n).remaining = [] := by
  rw [compress_pdf_tmp]
  rcases w with ⟨gs, qp, fo⟩
  cases gs <;> cases qp <;> (repeat' split) <;> exact cleanup_self _

theorem merge_pdf_created (bl : List Bytes) (w : MergeWorld) (n : Nat) :
    (merge_pdf bl w n).created
      = mergeInputPaths bl.length n ++ [⟨n + bl.length, "_gs.pdf"⟩] := by
  rw [merge_pdf]
  rcases w with ⟨qp, fo⟩
  cases qp <;> (repeat' split) <;> rfl

theorem merge_pdf_remaining (bl : List Bytes) (w : MergeWorld) (n : Nat) :
    (merge_pdf bl w n).remaining = [] := by
  rw [merge_pdf]
  rcases w with ⟨qp, fo⟩
  cases qp <;> (repeat' split) <;> exact cleanup_self _

theorem compress_pdf_tmp_invocations (b : Bytes) (q : String) (w : TmpWorld)
    (n : Nat) :
    (compress_pdf_tmp b q w n).invocations
      = if gsOk w then [compressGsInv q n, compressQpdfInv n]
        else [compressGsInv q n] := by
  rw [compress_pdf_tmp, gsOk]
  rcases w with ⟨gs, qp, fo⟩
  cases gs with
  | timedOut => simp [compressGsInv]
  | exited rc o e =>
      cases qp <;> by_cases h : rc = 0 <;>
        simp [h, compressGsInv, compressQpdfInv] <;>
        (repeat' split) <;> rfl

theorem merge_pdf_invocations (bl : List Bytes) (w : MergeWorld) (n : Nat) :
    (merge_pdf bl w n).invocations = [mergeInv bl.length n] := by
  rw [merge_pdf]
  rcases w with ⟨qp, fo⟩
  cases qp <;> (repeat' split) <;> rfl

theorem compress_pdf_tmp_gs_fail (b : Bytes) (q : String) (w : TmpWorld)
    (n : Nat) (rc : Int) (o : Bytes) (e : String)
    (hgs : w.gs = .exited rc o e) (hrc : rc ≠ 0) :
    (compress_pdf_tmp b q w n).result
      = .error ("Unexpected error: Error to compress file: " ++ e) := by
  rw [compress_pdf_tmp, hgs]
  simp [hrc]

theorem compress_pdf_tmp_gs_timeout (b : Bytes) (q : String) (w : TmpWorld)
    (n : Nat) (hgs : w.gs = .timedOut) :
    (compress_pdf_tmp b q w n).result
      = .error ("Compression timeout: " ++
          timeoutExpiredStr
            (gsTmpCmd q (pathStr ⟨n + 1, "_gs.pdf"⟩) (pathStr ⟨n, ".pdf"⟩))
            60) := by
  rw [compress_pdf_tmp, hgs]

theorem compress_pdf_tmp_qpdf_fail (b : Bytes) (q : String) (w : TmpWorld)
    (n : Nat) (o : Bytes) (e : String) (rc2 : Int) (o2 : Bytes) (e2 : String)
    (hgs : w.gs = .exited 0 o e) (hqp : w.qpdf = .exited rc2 o2 e2)
    (hrc2 : rc2 ≠ 0) :
    (compress_pdf_tmp b q w n).result
      = .error ("Unexpected error: Error to compress file: " ++ e2) := by
  rw [compress_pdf_tmp, hgs]
  simp only [ne_eq, not_true_eq_false, reduceIte, hqp]
  simp [hrc2]

theorem compress_pdf_tmp_qpdf_timeout (b : Bytes) (q : String) (w : TmpWorld)
    (n : Nat) (o : Bytes) (e : String)
    (hgs : w.gs = .exited 0 o e) (hqp : w.qpdf = .timedOut) :
    (compress_pdf_tmp b q w n).result
      = .error ("Compression timeout: " ++
          timeoutExpiredStr
            (qpdfTmpCmd (pathStr ⟨n + 1, "_gs.pdf"⟩)
              (pathStr ⟨n + 2, "_qpdf.pdf"⟩))
            60) := by
  rw [compress_pdf_tmp, hgs]
  simp [hqp]

theorem compress_pdf_tmp_ok (b : Bytes) (q : String) (w : TmpWorld)
    (n : Nat) (o : Bytes) (e : String) (o2 : Bytes) (e2 : String)
    (hgs : w.gs = .exited 0 o e) (hqp : w.qpdf = .exited 0 o2 e2) :
    (compress_pdf_tmp b q w n).result = .ok w.qpdfFileOutput := by
  rw [compress_pdf_tmp, hgs]
  simp [hqp]

theorem merge_pdf_fail (bl : List Bytes) (w : MergeWorld) (n : Nat)
    (rc : Int) (o : Bytes) (e : String)
    (hqp : w.qpdf = .exited rc o e) (hrc : rc ≠ 0) :
    (merge_pdf bl w n).result
      = .error ("Unexpected error during merge: Error merging PDFs: " ++ e) := by
  rw [merge_pdf, hqp]
  simp [hrc]

theorem merge_pdf_timeout (bl : List Bytes) (w : MergeWorld) (n : Nat)
    (hqp : w.qpdf = .timedOut) :
    (merge_pdf bl w n).result = .error "Merge operation timed out" := by
  rw [merge_pdf, hqp]

theorem merge_pdf_ok (bl : List Bytes) (w : MergeWorld) (n : Nat)
    (o : Bytes) (e : String) (hqp : w.qpdf = .exited 0 o e) :
    (merge_pdf bl w n).result = .ok w.qpdfFileOutput := by
  rw [merge_pdf, hqp]
  simp

theorem runSched_ids (n : Nat) (sched : List Bool) :
    (runSched n sched).map Prod.snd
      = (List.range sched.length).map (fun i => n + i) := by
  rw [runSched, List.map_map]
  calc (sched.enum.map (Prod.snd ∘ fun e => (e.2, n + e.1)))
      = sched.enum.map (fun e => n + e.1) := rfl
    _ = (sched.enum.map Prod.fst).map (fun i => n + i) := by
        rw [List.map_map]; rfl
    _ = (List.range sched.length).map (fun i => n + i) := by
        rw [List.enum_map_fst]

theorem runSched_ids_nodup (n : Nat) (sched : List Bool) :
    ((runSched n sched).map Prod.snd).Nodup := by
  rw [runSched_ids]
  exact (List.nodup_range _).map (fun a b h => by omega)

theorem idsFor_disjoint (n : Nat) (sched : List Bool) (x : Nat)
    (h1 : x ∈ idsFor true (runSched n sched))
    (h2 : x ∈ idsFor false (runSched n sched)) : False := by
  rw [idsFor, List.mem_map] at h1 h2
  obtain ⟨e1, he1, hx1⟩ := h1
  obtain ⟨e2, he2, hx2⟩ := h2
  rw [List.mem_filter] at he1 he2
  have hd := List.inj_on_of_nodup_map (runSched_ids_nodup n sched)
  have heq : e1 = e2 := hd he1.1 he2.1
    (by rw [show Prod.snd e1 = x from hx1, show Prod.snd e2 = x from hx2])
  have ht1 : e1.1 = true := by simpa using he1.2
  have ht2 : e2.1 = false := by simpa using he2.2
  rw [heq, ht2] at ht1
  exact Bool.false_ne_true ht1

theorem compress_pdf_tmp_heads (b : Bytes) (q : String) (w : TmpWorld)
    (n : Nat) :
    (compress_pdf_tmp b q w n).invocations.map (fun i => i.cmd.head?)
      = if gsOk w then [some "gs", some "qpdf"] else [some "gs"] := by
  rw [compress_pdf_tmp_invocations]
  split <;> rfl

theorem merge_pdf_heads (bl : List Bytes) (w : MergeWorld) (n : Nat) :
    (merge_pdf bl w n).invocations.map (fun i => i.cmd.head?)
      = [some "qpdf"] := by
  rw [merge_pdf_invocations]
  rfl

theorem compress_pdf_tmp_ok_shape (b : Bytes) (q : String) (w : TmpWorld)
    (n : Nat) (x : Bytes) (h : (compress_pdf_tmp b q w n).result = .ok x) :
    x = w.qpdfFileOutput := by
  rw [compress_pdf_tmp] at h
  rcases w with ⟨gs, qp, fo⟩
  cases gs <;> cases qp <;> (repeat' split at h) <;>
    first
      | exact (Except.noConfusion h)
      | (injection h with h1; exact h1.symm)

theorem merge_pdf_ok_shape (bl : List Bytes) (w : MergeWorld) (n : Nat)
    (x : Bytes) (h : (merge_pdf bl w n).result = .ok x) :
    x = w.qpdfFileOutput := by
  rw [merge_pdf] at h
  rcases w with ⟨qp, fo⟩
  cases qp <;> (repeat' split at h) <;>
    first
      | exact (Except.noConfusion h)
      | (injection h with h1; exact h1.symm)

theorem pdf_compressor_error_500 (file : UploadFile) (qual : Quality)
    (w : TmpWorld) (n : Nat) (e : HTTPError)
    (h : (pdf_compressor file qual w n).response = .error e) :
    e.status_code = 500 := by
  simp only [pdf_compressor] at h
  (repeat' split at h) <;>
    first
      | exact (Except.noConfusion h)
      | (injection h with h1; exact h1 ▸ rfl)

theorem pdf_merge_error_500 (files : List UploadFile) (w : MergeWorld)
    (m : Nat) (e : HTTPError)
    (h : (pdf_merge files w m).response = .error e) :
    e.status_code = 500 := by
  simp only [pdf_merge] at h
  (repeat' split at h) <;>
    first
      | exact (Except.noConfusion h)
      | (injection h with h1; exact h1 ▸ rfl)

theorem pdf_compressor_success (file : UploadFile) (qual : Quality)
    (w : TmpWorld) (n : Nat) (resp : Response)
    (h : (pdf_compressor file qual w n).response = .ok resp) :
    file.content_type = "application/pdf" ∧ file.size ≠ 0
    ∧ w.qpdfFileOutput ≠ []
    ∧ resp =
      { body := w.qpdfFileOutput
        media_type := "application/pdf"
        headers :=
          [ ("Content-Disposition",
              "attachment; filename=\""
                ++ removesuffix file.filename ".pdf" ++ "_compress.pdf\"")
          , ("Content-Length", toString w.qpdfFileOutput.length)
          , ("X-Original-Size", toString file.size)
          , ("X-Compressed-size", toString w.qpdfFileOutput.length)
          , ("X-Reduction-Percent",
              fmt2Frac (((file.size : ℤ) - w.qpdfFileOutput.length) * 100)
                file.size)
          , ("X-Quality-Level", qual.str) ] } := by
  simp only [pdf_compressor] at h
  by_cases hct : file.content_type = "application/pdf"
  · rw [if_neg (not_not_intro hct)] at h
    cases hres : (compress_pdf_tmp file.content (gsQuality qual) w n).result with
    | error msg => rw [hres] at h; exact (Except.noConfusion h)
    | ok x =>
        rw [hres] at h
        dsimp only at h
        have hx := compress_pdf_tmp_ok_shape _ _ _ _ _ hres
        subst hx
        by_cases hempty : w.qpdfFileOutput = []
        · rw [if_pos hempty] at h; exact (Except.noConfusion h)
        · rw [if_neg hempty] at h
          by_cases hsz : file.size = 0
          · rw [if_pos hsz] at h; exact (Except.noConfusion h)
          · rw [if_neg hsz] at h
            injection h with h1
            exact ⟨hct, hsz, hempty, h1.symm⟩
  · rw [if_pos hct] at h
    exact (Except.noConfusion h)

theorem pdf_merge_success (files : List UploadFile) (w : MergeWorld)
    (m : Nat) (resp : Response)
    (h : (pdf_merge files w m).response = .ok resp) :
    2 ≤ files.length ∧ w.qpdfFileOutput ≠ []
    ∧ resp =
      { body := w.qpdfFileOutput
        media_type := "application/pdf"
        headers :=
          [ ("Content-Disposition", "attachment; filename=\"merged.pdf\"")
          , ("Content-Length", toString w.qpdfFileOutput.length) ] } := by
  simp only [pdf_merge] at h
  by_cases hlen : files.length < 2
  · rw [if_pos hlen] at h; exact (Except.noConfusion h)
  · rw [if_neg hlen] at h
    cases hfind : files.find? (fun f => f.content_type != "application/pdf") with
    | some bad => rw [hfind] at h; exact (Except.noConfusion h)
    | none =>
        rw [hfind] at h
        cases hres : (merge_pdf (files.map UploadFile.content) w m).result with
        | error msg => rw [hres] at h; exact (Except.noConfusion h)
        | ok x =>
            rw [hres] at h
            dsimp only at h
            have hx := merge_pdf_ok_shape _ _ _ _ hres
            subst hx
            by_cases hempty : w.qpdfFileOutput = []
            · rw [if_pos hempty] at h; exact (Except.noConfusion h)
            · rw [if_neg hempty] at h
              injection h with h1
              exact ⟨Nat.le_of_not_lt hlen, hempty, h1.symm⟩

theorem rheDiv_eq_rhe (a : ℤ) (b : ℕ) (hb : b ≠ 0) :
    rheDiv a b = rhe ((a : ℚ) / (b : ℚ)) := by
  have hb0 : (0 : ℚ) < (b : ℚ) := by
    exact_mod_cast Nat.pos_of_ne_zero hb
  have hfl : ⌊(a : ℚ) / (b : ℚ)⌋ = a / (b : ℤ) :=
    Rat.floor_intCast_div_natCast a b
  have hdiff : (a : ℚ) / (b : ℚ) - ((a / (b : ℤ) : ℤ) : ℚ)
      = ((a % (b : ℤ) : ℤ) : ℚ) / (b : ℚ) := by
    rw [Int.emod_def]
    push_cast
    field_simp
  have key1 : ((a : ℚ) / (b : ℚ) - ((a / (b : ℤ) : ℤ) : ℚ) < 1 / 2)
      ↔ (2 * (a % (b : ℤ)) < (b : ℤ)) := by
    rw [hdiff, div_lt_div_iff₀ hb0 (by norm_num : (0:ℚ) < 2),
      show (1 : ℚ) * (b : ℚ) = (((b : ℤ) : ℚ)) by push_cast; ring,
      show ((a % (b : ℤ) : ℤ) : ℚ) * 2 = ((2 * (a % (b : ℤ)) : ℤ) : ℚ) by
        push_cast; ring]
    exact Int.cast_lt
  have key2 : (1 / 2 < (a : ℚ) / (b : ℚ) - ((a / (b : ℤ) : ℤ) : ℚ))
      ↔ ((b : ℤ) < 2 * (a % (b : ℤ))) := by
    rw [hdiff, div_lt_div_iff₀ (by norm_num : (0:ℚ) < 2) hb0,
      show (1 : ℚ) * (b : ℚ) = (((b : ℤ) : ℚ)) by push_cast; ring,
      show ((a % (b : ℤ) : ℤ) : ℚ) * 2 = ((2 * (a % (b : ℤ)) : ℤ) : ℚ) by
        push_cast; ring]
    exact Int.cast_lt
  rw [rheDiv, rhe]
  simp only [hfl, gt_iff_lt]
  rw [if_congr key1.symm rfl (if_congr key2.symm rfl rfl)]

theorem fmt2Frac_eq_fmt2 (a : ℤ) (b : ℕ) (hb : b ≠ 0) :
    fmt2Frac a b = fmt2 ((a : ℚ) / (b : ℚ)) := by
  rw [fmt2Frac, fmt2, rheDiv_eq_rhe _ _ hb]
  congr 1
  push_cast
  ring

theorem reduction_cast (s c : ℕ) (hs : s ≠ 0) :
    ((((s : ℤ) - (c : ℤ)) * 100 : ℤ) : ℚ) / (s : ℚ) = reductionOf s c := by
  have hs0 : (s : ℚ) ≠ 0 := Nat.cast_ne_zero.mpr hs
  rw [reductionOf]
  push_cast
  field_simp

/-! ## Claim theorems -/

/-- C1: for every call to compress_pdf_tmp and merge_pdf, on every exit
path (normal return, non-zero exit of an external tool, timeout, or any
other modelled outcome), every temporary file created during the call has
been deleted by the finally block when the call finishes, so no temp file
leaks. -/
theorem temp_files_all_deleted_on_every_exit (b : Bytes) (q : String)
    (w : TmpWorld) (bl : List Bytes) (mw : MergeWorld) (n m : Nat) :
    (compress_pdf_tmp b q w n).remaining = []
      ∧ (merge_pdf bl mw m).remaining = [] :=
  ⟨compress_pdf_tmp_remaining b q w n, merge_pdf_remaining bl mw m⟩

/-- C3 counterexample: the claim says every request to either endpoint
shells out to exactly two external tools, but a successful merge request
invokes exactly one external tool (a single qpdf run), not two. -/
theorem merge_single_tool_counterexample :
    (pdf_merge
        [ ⟨"a.pdf", "application/pdf", 3, [1]⟩
        , ⟨"b.pdf", "application/pdf", 3, [2]⟩ ]
        ⟨.exited 0 [] "", [5]⟩ 0).response.isOk = true
    ∧ (pdf_merge
        [ ⟨"a.pdf", "application/pdf", 3, [1]⟩
        , ⟨"b.pdf", "application/pdf", 3, [2]⟩ ]
        ⟨.exited 0 [] "", [5]⟩ 0).invocations.length = 1
    ∧ ¬ (pdf_merge
        [ ⟨"a.pdf", "application/pdf", 3, [1]⟩
        , ⟨"b.pdf", "application/pdf", 3, [2]⟩ ]
        ⟨.exited 0 [] "", [5]⟩ 0).invocations.length = 2 :=
  ⟨rfl, rfl, by decide⟩

/-- C3 amended: every compress request that reaches the service invokes
gs first and qpdf second, the qpdf invocation happening exactly when gs
exits with return code 0; every merge request that reaches the service
invokes exactly one external tool, qpdf. -/
theorem tool_invocation_sequence (b : Bytes) (q : String) (w : TmpWorld)
    (bl : List Bytes) (mw : MergeWorld) (n m : Nat) :
    ((compress_pdf_tmp b q w n).invocations.map (fun i => i.cmd.head?)
        = if gsOk w then [some "gs", some "qpdf"] else [some "gs"])
    ∧ ((merge_pdf bl mw m).invocations.map (fun i => i.cmd.head?)
        = [some "qpdf"]) :=
  ⟨compress_pdf_tmp_heads b q w n, merge_pdf_heads bl mw m⟩

/-- C5: every subprocess invocation in compress_pdf_tmp,
compress_pdf_buffer and merge_pdf is run with the finite timeout 60, and
when the timeout expires the operation fails with an error instead of
waiting indefinitely. -/
theorem subprocess_timeouts_bounded (b : Bytes) (q : String) (w : TmpWorld)
    (bl : List Bytes) (mw : MergeWorld) (po : ProcOutcome) (n m : Nat) :
    ((compress_pdf_tmp b q w n).invocations.all
        (fun i => i.timeoutSec == some 60) = true)
    ∧ ((merge_pdf bl mw m).invocations.all
        (fun i => i.timeoutSec == some 60) = true)
    ∧ ((compress_pdf_buffer b q po).2.all
        (fun i => i.timeoutSec == some 60) = true)
    ∧ (w.gs = .timedOut →
        (compress_pdf_tmp b q w n).result
          = .error ("Compression timeout: " ++
              timeoutExpiredStr
                (gsTmpCmd q (pathStr ⟨n + 1, "_gs.pdf"⟩)
                  (pathStr ⟨n, ".pdf"⟩)) 60))
    ∧ (mw.qpdf = .timedOut →
        (merge_pdf bl mw m).result = .error "Merge operation timed out")
    ∧ (po = .timedOut →
        (compress_pdf_buffer b q po).1 = .error "Compression took too long") := by
  refine ⟨?_, ?_, ?_, ?_, ?_, ?_⟩
  · rw [compress_pdf_tmp_invocations]
    split <;> rfl
  · rw [merge_pdf_invocations]
    rfl
  · cases po <;> simp only [compress_pdf_buffer] <;> (repeat' split) <;> rfl
  · intro h
    exact compress_pdf_tmp_gs_timeout b q w n h
  · intro h
    exact merge_pdf_timeout bl mw m h
  · intro h
    rw [h]
    rfl

/-- C5 witness: the timeout bound and the timeout failure observed at a
concrete request whose external processes all time out. -/
theorem subprocess_timeouts_bounded_witness :
    ((compress_pdf_tmp [1] "screen" ⟨.timedOut, .timedOut, []⟩ 0).invocations.all
        (fun i => i.timeoutSec == some 60) = true)
    ∧ ((merge_pdf [[1], [2]] ⟨.timedOut, []⟩ 0).invocations.all
        (fun i => i.timeoutSec == some 60) = true)
    ∧ ((compress_pdf_buffer [1] "screen" .timedOut).2.all
        (fun i => i.timeoutSec == some 60) = true)
    ∧ ((compress_pdf_tmp [1] "screen" ⟨.timedOut, .timedOut, []⟩ 0).result
        = .error ("Compression timeout: " ++
            timeoutExpiredStr
              (gsTmpCmd "screen" (pathStr ⟨1, "_gs.pdf"⟩)
                (pathStr ⟨0, ".pdf"⟩)) 60))
    ∧ ((merge_pdf [[1], [2]] ⟨.timedOut, []⟩ 0).result
        = .error "Merge operation timed out")
    ∧ ((compress_pdf_buffer [1] "screen" .timedOut).1
        = .error "Compression took too long") := by
  obtain ⟨h1, h2, h3, h4, h5, h6⟩ :=
    subprocess_timeouts_bounded [1] "screen" ⟨.timedOut, .timedOut, []⟩
      [[1], [2]] ⟨.timedOut, []⟩ .timedOut 0 0
  exact ⟨h1, h2, h3, h4 rfl, h5 rfl, h6 rfl⟩

/-- C2: each failure mode of an external tool — non-zero exit, empty
output and timeout — makes the operation fail with a descriptive error
(the wrapped RuntimeError text, or the 500 detail at the endpoint for the
empty-output case), and no tool is ever invoked twice in one request. -/
theorem external_failures_error_without_retry (b : Bytes) (q : String)
    (bl : List Bytes) (n m : Nat) (rc rc2 : Int) (o o2 fo : Bytes)
    (e e2 : String) (qp po : ProcOutcome) (file : UploadFile)
    (qual : Quality) (files : List UploadFile) (w : TmpWorld)
    (mw : MergeWorld) :
    (rc ≠ 0 →
      (compress_pdf_tmp b q ⟨.exited rc o e, qp, fo⟩ n).result
        = .error ("Unexpected error: Error to compress file: " ++ e))
    ∧ ((compress_pdf_tmp b q ⟨.timedOut, qp, fo⟩ n).result
        = .error ("Compression timeout: " ++
            timeoutExpiredStr
              (gsTmpCmd q (pathStr ⟨n + 1, "_gs.pdf"⟩) (pathStr ⟨n, ".pdf"⟩))
              60))
    ∧ (rc2 ≠ 0 →
      (compress_pdf_tmp b q ⟨.exited 0 o e, .exited rc2 o2 e2, fo⟩ n).result
        = .error ("Unexpected error: Error to compress file: " ++ e2))
    ∧ ((compress_pdf_tmp b q ⟨.exited 0 o e, .timedOut, fo⟩ n).result
        = .error ("Compression timeout: " ++
            timeoutExpiredStr
              (qpdfTmpCmd (pathStr ⟨n + 1, "_gs.pdf"⟩)
                (pathStr ⟨n + 2, "_qpdf.pdf"⟩)) 60))
    ∧ (rc ≠ 0 →
      (merge_pdf bl ⟨.exited rc o e, fo⟩ m).result
        = .error ("Unexpected error during merge: Error merging PDFs: " ++ e))
    ∧ ((merge_pdf bl ⟨.timedOut, fo⟩ m).result
        = .error "Merge operation timed out")
    ∧ (rc ≠ 0 →
      (compress_pdf_buffer b q (.exited rc o e)).1
        = .error ("Unexpected error: Error to compress file: " ++ e))
    ∧ ((compress_pdf_buffer b q (.exited 0 [] e)).1
        = .error "Unexpected error: Compression failed: no output generated")
    ∧ ((compress_pdf_buffer b q .timedOut).1
        = .error "Compression took too long")
    ∧ (file.content_type = "application/pdf" →
      (pdf_compressor file qual ⟨.exited 0 o e, .exited 0 o2 e2, []⟩ n).response
        = .error ⟨500, "500: Compression did not generate any results"⟩)
    ∧ (2 ≤ files.length →
      (∀ f ∈ files, f.content_type = "application/pdf") →
      (pdf_merge files ⟨.exited 0 o e, []⟩ m).response
        = .error ⟨500, "500: Merge did not generate any results"⟩)
    ∧ (((compress_pdf_tmp b q w n).invocations.map
          (fun i => i.cmd.head?)).count (some "gs") ≤ 1)
    ∧ (((compress_pdf_tmp b q w n).invocations.map
          (fun i => i.cmd.head?)).count (some "qpdf") ≤ 1)
    ∧ ((merge_pdf bl mw m).invocations.length = 1)
    ∧ ((compress_pdf_buffer b q po).2.length = 1) := by
  refine ⟨?_, ?_, ?_, ?_, ?_, ?_, ?_, ?_, ?_, ?_, ?_, ?_, ?_, ?_, ?_⟩
  · intro h
    exact compress_pdf_tmp_gs_fail b q _ n rc o e rfl h
  · exact compress_pdf_tmp_gs_timeout b q _ n rfl
  · intro h
    exact compress_pdf_tmp_qpdf_fail b q _ n o e rc2 o2 e2 rfl rfl h
  · exact compress_pdf_tmp_qpdf_timeout b q _ n o e rfl rfl
  · intro h
    exact merge_pdf_fail bl _ m rc o e rfl h
  · exact merge_pdf_timeout bl _ m rfl
  · intro h
    simp only [compress_pdf_buffer]
    rw [if_pos h]
  · rfl
  · rfl
  · intro hct
    have hres :
        (compress_pdf_tmp file.content (gsQuality qual)
          ⟨.exited 0 o e, .exited 0 o2 e2, []⟩ n).result = .ok ([] : Bytes) :=
      compress_pdf_tmp_ok _ _ _ n o e o2 e2 rfl rfl
    simp only [pdf_compressor]
    rw [if_neg (not_not_intro hct), hres]
    rfl
  · intro hlen hall
    have hfind :
        files.find? (fun f => f.content_type != "application/pdf") = none :=
      List.find?_eq_none.mpr (fun f hf => by simp [hall f hf])
    have hres :
        (merge_pdf (files.map UploadFile.content)
          ⟨.exited 0 o e, []⟩ m).result = .ok ([] : Bytes) :=
      merge_pdf_ok _ _ m o e rfl
    simp only [pdf_merge]
    rw [if_neg (Nat.not_lt.mpr hlen), hfind, hres]
    rfl
  · rw [compress_pdf_tmp_heads]
    split <;> decide
  · rw [compress_pdf_tmp_heads]
    split <;> decide
  · rw [merge_pdf_invocations]
    rfl
  · cases po <;> simp only [compress_pdf_buffer] <;> (repeat' split) <;> rfl

/-- C2 witness: the failure modes observed at concrete requests. -/
theorem external_failures_error_without_retry_witness :
    ((compress_pdf_tmp [1] "screen"
        ⟨.exited 1 [] "berr", .timedOut, [7]⟩ 0).result
      = .error ("Unexpected error: Error to compress file: " ++ "berr"))
    ∧ ((compress_pdf_tmp [1] "screen"
        ⟨.exited 0 [] "berr", .exited 1 [] "qerr", [7]⟩ 0).result
      = .error ("Unexpected error: Error to compress file: " ++ "qerr"))
    ∧ ((merge_pdf [[1], [2]] ⟨.exited 1 [] "berr", [7]⟩ 0).result
      = .error ("Unexpected error during merge: Error merging PDFs: " ++ "berr"))
    ∧ ((compress_pdf_buffer [1] "screen" (.exited 1 [] "berr")).1
      = .error ("Unexpected error: Error to compress file: " ++ "berr"))
    ∧ ((pdf_compressor ⟨"a.pdf", "application/pdf", 9, [1]⟩ .extreme
        ⟨.exited 0 [] "berr", .exited 0 [] "qerr", []⟩ 0).response
      = .error ⟨500, "500: Compression did not generate any results"⟩)
    ∧ ((pdf_merge
        [ ⟨"a.pdf", "application/pdf", 3, [1]⟩
        , ⟨"b.pdf", "application/pdf", 3, [2]⟩ ]
        ⟨.exited 0 [] "berr", []⟩ 0).response
      = .error ⟨500, "500: Merge did not generate any results"⟩) := by
  obtain ⟨h1, _, h3, _, h5, _, h7, _, _, h10, h11, _, _, _, _⟩ :=
    external_failures_error_without_retry [1] "screen" [[1], [2]] 0 0 1 1
      [] [] [7] "berr" "qerr" .timedOut .timedOut
      ⟨"a.pdf", "application/pdf", 9, [1]⟩ .extreme
      [ ⟨"a.pdf", "application/pdf", 3, [1]⟩
      , ⟨"b.pdf", "application/pdf", 3, [2]⟩ ]
      ⟨.timedOut, .timedOut, []⟩ ⟨.timedOut, []⟩
  exact ⟨h1 (by decide), h3 (by decide), h5 (by decide), h7 (by decide),
    h10 rfl, h11 (by decide) (by decide)⟩

/-- C4 counterexample: the claim says every successful response of either
endpoint carries original-size, compressed-size and reduction headers,
but a successful merge response carries only Content-Disposition and
Content-Length. -/
theorem merge_headers_counterexample :
    (pdf_merge
        [ ⟨"a.pdf", "application/pdf", 3, [1]⟩
        , ⟨"b.pdf", "application/pdf", 3, [2]⟩ ]
        ⟨.exited 0 [] "", [5]⟩ 0).response.isOk = true
    ∧ ((headersOf (pdf_merge
        [ ⟨"a.pdf", "application/pdf", 3, [1]⟩
        , ⟨"b.pdf", "application/pdf", 3, [2]⟩ ]
        ⟨.exited 0 [] "", [5]⟩ 0).response).map Prod.fst
      = ["Content-Disposition", "Content-Length"])
    ∧ "X-Original-Size" ∉ (headersOf (pdf_merge
        [ ⟨"a.pdf", "application/pdf", 3, [1]⟩
        , ⟨"b.pdf", "application/pdf", 3, [2]⟩ ]
        ⟨.exited 0 [] "", [5]⟩ 0).response).map Prod.fst
    ∧ "X-Reduction-Percent" ∉ (headersOf (pdf_merge
        [ ⟨"a.pdf", "application/pdf", 3, [1]⟩
        , ⟨"b.pdf", "application/pdf", 3, [2]⟩ ]
        ⟨.exited 0 [] "", [5]⟩ 0).response).map Prod.fst := by
  refine ⟨rfl, rfl, by decide, by decide⟩

/-- C4 amended: a successful compress response is the transformed PDF
with original-size, compressed-size and reduction-percentage headers; a
successful merge response is the merged PDF with only the
Content-Disposition and Content-Length headers and no size or reduction
metadata. -/
theorem response_headers_by_endpoint (file : UploadFile) (qual : Quality)
    (w : TmpWorld) (n : Nat) (files : List UploadFile) (mw : MergeWorld)
    (m : Nat) :
    (∀ resp, (pdf_compressor file qual w n).response = .ok resp →
      resp.body = w.qpdfFileOutput
      ∧ resp.media_type = "application/pdf"
      ∧ ("X-Original-Size", toString file.size) ∈ resp.headers
      ∧ ("X-Compressed-size", toString resp.body.length) ∈ resp.headers
      ∧ ("X-Reduction-Percent",
          fmt2 (reductionOf file.size resp.body.length)) ∈ resp.headers)
    ∧ (∀ resp, (pdf_merge files mw m).response = .ok resp →
      resp.body = mw.qpdfFileOutput
      ∧ resp.media_type = "application/pdf"
      ∧ resp.headers.map Prod.fst = ["Content-Disposition", "Content-Length"]) := by
  constructor
  · intro resp h
    obtain ⟨hct, hsz, hne, hresp⟩ := pdf_compressor_success file qual w n resp h
    have hXRP :
        fmt2Frac (((file.size : ℤ) - w.qpdfFileOutput.length) * 100) file.size
          = fmt2 (reductionOf file.size w.qpdfFileOutput.length) := by
      rw [fmt2Frac_eq_fmt2 _ _ hsz, reduction_cast _ _ hsz]
    subst hresp
    refine ⟨rfl, rfl, ?_, ?_, ?_⟩
    · simp
    · simp
    · rw [← hXRP]
      simp
  · intro resp h
    obtain ⟨hlen, hne, hresp⟩ := pdf_merge_success files mw m resp h
    subst hresp
    exact ⟨rfl, rfl, rfl⟩

/-- C4 amended witness: the headers observed at one concrete successful
compress request and one concrete successful merge request. -/
theorem response_headers_by_endpoint_witness :
    (("X-Original-Size", "100")
        ∈ headersOf (pdf_compressor ⟨"a.pdf", "application/pdf", 100, [1, 2]⟩
            .extreme ⟨.exited 0 [] "", .exited 0 [] "", [3]⟩ 0).response)
    ∧ ((headersOf (pdf_merge
          [ ⟨"a.pdf", "application/pdf", 3, [1]⟩
          , ⟨"b.pdf", "application/pdf", 3, [2]⟩ ]
          ⟨.exited 0 [] "", [5]⟩ 0).response).map Prod.fst
        = ["Content-Disposition", "Content-Length"]) := by
  constructor
  · have h := (response_headers_by_endpoint
      ⟨"a.pdf", "application/pdf", 100, [1, 2]⟩ .extreme
      ⟨.exited 0 [] "", .exited 0 [] "", [3]⟩ 0 [] ⟨.timedOut, []⟩ 0).1
      { body := [3]
        media_type := "application/pdf"
        headers :=
          [ ("Content-Disposition", "attachment; filename=\"a_compress.pdf\"")
          , ("Content-Length", "1")
          , ("X-Original-Size", "100")
          , ("X-Compressed-size", "1")
          , ("X-Reduction-Percent", "99.00")
          , ("X-Quality-Level", "extreme") ] } rfl
    exact h.2.2.1
  · have h := (response_headers_by_endpoint
      ⟨"a.pdf", "application/pdf", 100, [1, 2]⟩ .extreme
      ⟨.exited 0 [] "", .exited 0 [] "", [3]⟩ 0
      [ ⟨"a.pdf", "application/pdf", 3, [1]⟩
      , ⟨"b.pdf", "application/pdf", 3, [2]⟩ ]
      ⟨.exited 0 [] "", [5]⟩ 0).2
      { body := [5]
        media_type := "application/pdf"
        headers :=
          [ ("Content-Disposition", "attachment; filename=\"merged.pdf\"")
          , ("Content-Length", "1") ] } rfl
    exact h.2.2

/-- C6: the quality form field admits exactly the three literals extreme,
normal and low; the accepted_quality dict maps them to the Ghostscript
presets screen, ebook and printer respectively; each preset fixes the
mono, color and gray image resolutions (150, 72, 72 for screen; 300, 96,
96 for ebook; 600, 150, 150 for printer) and those resolutions appear as
flags of the gs command; any other quality string is rejected by the
interface validation. -/
theorem quality_enum_mapping (s out inp : String) (qual : Quality) :
    (parseQuality "extreme" = some .extreme
      ∧ parseQuality "normal" = some .normal
      ∧ parseQuality "low" = some .low)
    ∧ (s ≠ "extreme" → s ≠ "normal" → s ≠ "low" → parseQuality s = none)
    ∧ (accepted_quality "extreme" = some "screen"
      ∧ accepted_quality "normal" = some "ebook"
      ∧ accepted_quality "low" = some "printer")
    ∧ accepted_quality qual.str = some (gsQuality qual)
    ∧ (qualitySettings "screen" = (150, 72, 72)
      ∧ qualitySettings "ebook" = (300, 96, 96)
      ∧ qualitySettings "printer" = (600, 150, 150))
    ∧ (("-dMonoImageResolution="
          ++ toString (qualitySettings (gsQuality qual)).1)
        ∈ gsTmpCmd (gsQuality qual) out inp
      ∧ ("-dColorImageResolution="
          ++ toString (qualitySettings (gsQuality qual)).2.1)
        ∈ gsTmpCmd (gsQuality qual) out inp
      ∧ ("-dGrayImageResolution="
          ++ toString (qualitySettings (gsQuality qual)).2.2)
        ∈ gsTmpCmd (gsQuality qual) out inp) := by
  refine ⟨⟨rfl, rfl, rfl⟩, ?_, ⟨rfl, rfl, rfl⟩, ?_, ⟨rfl, rfl, rfl⟩, ?_⟩
  · intro h1 h2 h3
    rw [parseQuality.eq_def]
    split <;> simp_all
  · cases qual <;> rfl
  · refine ⟨?_, ?_, ?_⟩ <;> simp [gsTmpCmd]

/-- C6 witness: rejection of a quality string outside the enum. -/
theorem quality_enum_mapping_witness : parseQuality "medium" = none :=
  (quality_enum_mapping "medium" "o" "i" .extreme).2.1
    (by decide) (by decide) (by decide)

theorem mergeInputPaths_ids (k n : Nat) :
    (mergeInputPaths k n).map TempPath.id
      = (List.range k).map (fun i => n + i) := by
  rw [mergeInputPaths, List.map_map]
  rfl

/-- C7: the temp paths of one compress request are pairwise distinct, the
temp paths of one merge request are pairwise distinct and indexed by
upload position, and under any interleaving of the creation events of two
concurrent requests the fresh-name allocator hands out globally distinct
ids, so the two requests never share a temp path. -/
theorem temp_path_uniqueness (b : Bytes) (q : String) (w : TmpWorld)
    (bl : List Bytes) (mw : MergeWorld) (n m sn : Nat) (sched : List Bool) :
    ((compress_pdf_tmp b q w n).created.map TempPath.id).Nodup
    ∧ ((merge_pdf bl mw m).created.map TempPath.id).Nodup
    ∧ (∀ i, i < bl.length →
        (mergeInputPaths bl.length m).get? i
          = some ⟨m + i, "_" ++ toString i ++ ".pdf"⟩)
    ∧ ((runSched sn sched).map Prod.snd).Nodup
    ∧ (∀ x, x ∈ idsFor true (runSched sn sched) →
        x ∉ idsFor false (runSched sn sched)) := by
  refine ⟨?_, ?_, ?_, runSched_ids_nodup sn sched,
    fun x h1 h2 => idsFor_disjoint sn sched x h1 h2⟩
  · rw [compress_pdf_tmp_created, compressPaths]
    simp
  · rw [merge_pdf_created, List.map_append, mergeInputPaths_ids,
      List.nodup_append]
    refine ⟨(List.nodup_range _).map (fun a b h => by omega), by simp, ?_⟩
    intro x hx hx'
    simp only [List.mem_map, List.mem_range] at hx
    simp only [List.map_cons, List.map_nil, List.mem_singleton] at hx'
    obtain ⟨i, hi, hix⟩ := hx
    omega
  · intro i hi
    rw [mergeInputPaths]
    rw [List.get?_map, List.get?_range hi]
    rfl

/-- C7 witness: distinct indexed paths and disjoint concurrent
allocations at a concrete merge request and a concrete schedule. -/
theorem temp_path_uniqueness_witness :
    (mergeInputPaths 2 0).get? 1 = some ⟨1, "_" ++ toString 1 ++ ".pdf"⟩
    ∧ 0 ∉ idsFor false (runSched 0 [true, false]) := by
  obtain ⟨_, _, h3, _, h5⟩ :=
    temp_path_uniqueness [1] "screen" ⟨.timedOut, .timedOut, []⟩
      [[1], [2]] ⟨.timedOut, []⟩ 0 0 0 [true, false]
  exact ⟨h3 1 (by decide), h5 0 (by decide)⟩

/-- C8: FileService carries no state (any two instances are equal), the
observable outcome of a service call depends only on the arguments and
the external-tool behaviour — not on the allocator history left by
earlier requests — and no temp file persists past the call. -/
theorem no_cross_request_state (s1 s2 : FileService) (b : Bytes)
    (q : String) (w : TmpWorld) (bl : List Bytes) (mw : MergeWorld)
    (n1 n2 : Nat) :
    s1 = s2
    ∧ obsResult (compress_pdf_tmp b q w n1).result
        = obsResult (compress_pdf_tmp b q w n2).result
    ∧ obsResult (merge_pdf bl mw n1).result
        = obsResult (merge_pdf bl mw n2).result
    ∧ (compress_pdf_tmp b q w n1).remaining = []
    ∧ (merge_pdf bl mw n1).remaining = [] := by
  refine ⟨?_, ?_, ?_, compress_pdf_tmp_remaining b q w n1,
    merge_pdf_remaining bl mw n1⟩
  · cases s1
    cases s2
    rfl
  · simp only [compress_pdf_tmp]
    rcases w with ⟨gs, qp, fo⟩
    cases gs <;> cases qp <;> (repeat' split) <;> simp_all [obsResult]
  · simp only [merge_pdf]
    rcases mw with ⟨qp, fo⟩
    cases qp <;> (repeat' split) <;> simp_all [obsResult]

/-- C9: every failing request to either handler — including the
validation failures written as HTTP 400 in the source — is re-raised by
the blanket except clause as an HTTP 500, so neither handler ever
surfaces a 4xx status. -/
theorem handlers_raise_only_500 (file : UploadFile) (qual : Quality)
    (w : TmpWorld) (files : List UploadFile) (mw : MergeWorld) (n m : Nat) :
    (∀ e, (pdf_compressor file qual w n).response = .error e →
      e.status_code = 500)
    ∧ (∀ e, (pdf_merge files mw m).response = .error e →
      e.status_code = 500)
    ∧ (file.content_type ≠ "application/pdf" →
      (pdf_compressor file qual w n).response
        = .error ⟨500, "400: File type is incorrect"⟩)
    ∧ (files.length < 2 →
      (pdf_merge files mw m).response
        = .error ⟨500, "400: At least 2 PDF files are required for merging."⟩) := by
  refine ⟨?_, ?_, ?_, ?_⟩
  · intro e h
    exact pdf_compressor_error_500 _ _ _ _ _ h
  · intro e h
    exact pdf_merge_error_500 _ _ _ _ h
  · intro hct
    simp only [pdf_compressor]
    rw [if_pos hct]
    rfl
  · intro hlen
    simp only [pdf_merge]
    rw [if_pos hlen]
    rfl

/-- C9 witness: a wrong-content-type compress request and a one-file
merge request both come back as 500, never 400. -/
theorem handlers_raise_only_500_witness :
    ((pdf_compressor ⟨"a.txt", "text/plain", 3, [1]⟩ .normal
        ⟨.timedOut, .timedOut, []⟩ 0).response
      = .error ⟨500, "400: File type is incorrect"⟩)
    ∧ ((pdf_merge [⟨"a.pdf", "application/pdf", 3, [1]⟩]
        ⟨.timedOut, []⟩ 0).response
      = .error ⟨500, "400: At least 2 PDF files are required for merging."⟩)
    ∧ (HTTPError.status_code ⟨500, "400: File type is incorrect"⟩ = 500) := by
  obtain ⟨hA, _, hC, hD⟩ := handlers_raise_only_500
    ⟨"a.txt", "text/plain", 3, [1]⟩ .normal ⟨.timedOut, .timedOut, []⟩
    [⟨"a.pdf", "application/pdf", 3, [1]⟩] ⟨.timedOut, []⟩ 0 0
  have h1 := hC (by decide)
  exact ⟨h1, hD (by decide), hA _ h1⟩

/-- C10: the reduction percentage is computed with no guard on a zero
original size — a compress request whose upload reports size 0 and whose
compression succeeds with non-empty output fails with the
division-by-zero error (wrapped as a 500) — and on every successful
request the X-Reduction-Percent header is exactly
((original - compressed) / original) * 100 rendered with two decimal
places. -/
theorem reduction_percent_division (file : UploadFile) (qual : Quality)
    (w : TmpWorld) (n : Nat) :
    (file.content_type = "application/pdf" → file.size = 0 →
      ∀ o e o2 e2, w.gs = .exited 0 o e → w.qpdf = .exited 0 o2 e2 →
      w.qpdfFileOutput ≠ [] →
      (pdf_compressor file qual w n).response
        = .error ⟨500, "division by zero"⟩)
    ∧ (∀ resp, (pdf_compressor file qual w n).response = .ok resp →
      ("X-Reduction-Percent", fmt2 (reductionOf file.size resp.body.length))
        ∈ resp.headers) := by
  constructor
  · intro hct hsz o e o2 e2 hgs hqp hne
    have hres :
        (compress_pdf_tmp file.content (gsQuality qual) w n).result
          = .ok w.qpdfFileOutput :=
      compress_pdf_tmp_ok _ _ _ _ o e o2 e2 hgs hqp
    simp only [pdf_compressor]
    rw [if_neg (not_not_intro hct), hres]
    dsimp only
    rw [if_neg hne, if_pos hsz]
  · intro resp h
    obtain ⟨hct, hsz, hne, hresp⟩ := pdf_compressor_success file qual w n resp h
    have hXRP :
        fmt2Frac (((file.size : ℤ) - w.qpdfFileOutput.length) * 100) file.size
          = fmt2 (reductionOf file.size w.qpdfFileOutput.length) := by
      rw [fmt2Frac_eq_fmt2 _ _ hsz, reduction_cast _ _ hsz]
    subst hresp
    dsimp only
    rw [← hXRP]
    simp

/-- C10 witness: the division-by-zero failure at a zero-size upload and
the reduction header at a successful 100-byte upload compressed to one
byte. -/
theorem reduction_percent_division_witness :
    ((pdf_compressor ⟨"a.pdf", "application/pdf", 0, [1]⟩ .extreme
        ⟨.exited 0 [] "", .exited 0 [] "", [3]⟩ 0).response
      = .error ⟨500, "division by zero"⟩)
    ∧ ("X-Reduction-Percent", fmt2 (reductionOf 100 1))
        ∈ headersOf (pdf_compressor ⟨"a.pdf", "application/pdf", 100, [1, 2]⟩
            .extreme ⟨.exited 0 [] "", .exited 0 [] "", [3]⟩ 0).response := by
  constructor
  · exact (reduction_percent_division ⟨"a.pdf", "application/pdf", 0, [1]⟩
      .extreme ⟨.exited 0 [] "", .exited 0 [] "", [3]⟩ 0).1
      rfl rfl [] "" [] "" rfl rfl (by decide)
  · have h := (reduction_percent_division
      ⟨"a.pdf", "application/pdf", 100, [1, 2]⟩ .extreme
      ⟨.exited 0 [] "", .exited 0 [] "", [3]⟩ 0).2
      { body := [3]
        media_type := "application/pdf"
        headers :=
          [ ("Content-Disposition", "attachment; filename=\"a_compress.pdf\"")
          , ("Content-Length", "1")
          , ("X-Original-Size", "100")
          , ("X-Compressed-size", "1")
          , ("X-Reduction-Percent", "99.00")
          , ("X-Quality-Level", "extreme") ] } rfl
    exact h
